import Mathlib

/-!
Verification of the task-management core of this repository.

The task store (src/tools/task_tools.py) is embedded shallowly: the global
list tasks_db becomes an explicit value of type List Task threaded through
the operations, wall-clock timestamps (datetime.now().isoformat()) become an
abstract Nat clock value passed in explicitly as a parameter named now, and
the fire-and-forget observability calls (log_agent_event) are omitted since
they never affect the store. Python falsy checks on optional string
arguments (None or the empty string) are modelled on Option String.

The Google agent pipeline (src/agents/google_adk_agent.py) is embedded for
its deterministic parts: request classification, the failure contract of
parameter extraction, and the action dispatcher.
-/

namespace TaskTools

/-- A task record, mirroring the dict built in TaskTools.create_task with
the same fields in the same order. Timestamps are abstract Nat clock
values. -/
structure Task where
  id : Nat
  title : String
  description : String
  priority : String
  due_date : Option String
  status : String
  created_at : Nat
  completed_at : Option Nat
deriving DecidableEq

/-- TaskTools.create_task: builds the task with id equal to
len(tasks_db) + 1, status pending, completed_at None, appends it to the
store, and returns it together with the new store. -/
def create_task (db : List Task) (now : Nat) (title : String)
    (description : String) (priority : String)
    (due_date : Option String) : Task × List Task :=
  let task : Task :=
    { id := db.length + 1
      title := title
      description := description
      priority := priority
      due_date := due_date
      status := "pending"
      created_at := now
      completed_at := none }
  (task, db ++ [task])

/-- TaskTools.get_task: linear search for the first task with the given
id. -/
def get_task (db : List Task) (task_id : Nat) : Option Task :=
  db.find? (fun t => t.id == task_id)

/-- TaskTools.list_tasks: Python tests the status argument for truthiness,
so both None and the empty string mean no filter. -/
def list_tasks (db : List Task) (status : Option String) : List Task :=
  match status with
  | some s => if s = "" then db else db.filter (fun t => t.status == s)
  | none => db

/-- One field assignment guarded by a Python truthiness test: the source
runs task[field] = arg only under if arg:, so None and the empty string
leave the current value in place. -/
def truthyUpd (cur : String) (arg : Option String) : String :=
  match arg with
  | none => cur
  | some s => if s = "" then cur else s

/-- The body of TaskTools.update_task applied to the found task: the chain
of if title: ... if description: ... if priority: ... if status: ...
(with completed_at set when the new status is the string completed) and
if due_date: ... . The five guarded assignments touch disjoint fields, so
the sequential chain is written as one record update; completed_at changes
exactly when the status argument is truthy and equals completed. -/
def applyTaskUpdate (now : Nat)
    (title description priority status due_date : Option String)
    (t : Task) : Task :=
  { t with
    title := truthyUpd t.title title
    description := truthyUpd t.description description
    priority := truthyUpd t.priority priority
    status := truthyUpd t.status status
    completed_at :=
      match status with
      | some s => if s = "completed" then some now else t.completed_at
      | none => t.completed_at
    due_date :=
      match due_date with
      | some s => if s = "" then t.due_date else some s
      | none => t.due_date }

/-- TaskTools.update_task: finds the first task with the given id, mutates
it in place, and returns the mutated task (or none when absent) together
with the store. -/
def update_task (db : List Task) (now : Nat) (task_id : Nat)
    (title description priority status due_date : Option String) :
    Option Task × List Task :=
  match db with
  | [] => (none, [])
  | t :: rest =>
    if t.id == task_id then
      let t2 := applyTaskUpdate now title description priority status due_date t
      (some t2, t2 :: rest)
    else
      let r := update_task rest now task_id title description priority status due_date
      (r.1, t :: r.2)

/-- TaskTools.delete_task: rebuilds the store keeping the tasks whose id
differs, and reports whether the length shrank. -/
def delete_task (db : List Task) (task_id : Nat) : Bool × List Task :=
  let db2 := db.filter (fun t => t.id != task_id)
  (db2.length < db.length, db2)

/-- The statistics record computed by TaskTools.get_statistics. -/
structure Stats where
  total : Nat
  pending : Nat
  in_progress : Nat
  completed : Nat
  high_priority : Nat
  medium_priority : Nat
  low_priority : Nat
deriving DecidableEq

/-- TaskTools.get_statistics: counts over the current store. -/
def get_statistics (db : List Task) : Stats :=
  { total := db.length
    pending := (db.filter (fun t => t.status == "pending")).length
    in_progress := (db.filter (fun t => t.status == "in_progress")).length
    completed := (db.filter (fun t => t.status == "completed")).length
    high_priority := (db.filter (fun t => t.priority == "high")).length
    medium_priority := (db.filter (fun t => t.priority == "medium")).length
    low_priority := (db.filter (fun t => t.priority == "low")).length }

/-- One mutating store operation, with its clock value and arguments. -/
inductive Op where
  | create (now : Nat) (title description priority : String) (due_date : Option String)
  | update (now : Nat) (task_id : Nat)
      (title description priority status due_date : Option String)
  | delete (task_id : Nat)

/-- Apply one operation to the store, discarding the returned value. -/
def applyOp (db : List Task) : Op → List Task
  | Op.create now title description priority due_date =>
      (create_task db now title description priority due_date).2
  | Op.update now task_id title description priority status due_date =>
      (update_task db now task_id title description priority status due_date).2
  | Op.delete task_id => (delete_task db task_id).2

/-- The store reached from the initially empty tasks_db by a sequence of
operations. -/
def runOps (ops : List Op) : List Task := ops.foldl applyOp []

end TaskTools

namespace GoogleADKAgent

open TaskTools

/-- Python substring containment (the in operator on strings): pat occurs
contiguously somewhere in hay. -/
def strContainsSub (hay pat : String) : Bool :=
  (List.range (hay.data.length + 1)).any (fun i => pat.data.isPrefixOf (hay.data.drop i))

/-- True when any of the keywords occurs in the text, as in
any(word in request_lower for word in [...]). -/
def anyKeyword (text : String) (kws : List String) : Bool :=
  kws.any (fun w => strContainsSub text w)

def createKeywords : List String := ["create", "add", "new task"]

def listKeywords : List String := ["list", "show", "get tasks", "tasks"]

def updateKeywords : List String := ["update", "change", "modify", "mark"]

def statisticsKeywords : List String := ["statistics", "stats", "summary", "overview"]

def deleteKeywords : List String := ["delete", "remove"]

/-- Python str.lower, character by character. -/
def lowerStr (s : String) : String := String.mk (s.data.map Char.toLower)

/-- GoogleADKAgent._parse_user_request: lower-cases the request and tests
the five fixed keyword sets in source order, returning the action tag
together with the original request text. -/
def parse_user_request (user_request : String) : String × String :=
  let request_lower := lowerStr user_request
  if anyKeyword request_lower createKeywords then ("create", user_request)
  else if anyKeyword request_lower listKeywords then ("list", user_request)
  else if anyKeyword request_lower updateKeywords then ("update", user_request)
  else if anyKeyword request_lower statisticsKeywords then ("statistics", user_request)
  else if anyKeyword request_lower deleteKeywords then ("delete", user_request)
  else ("general", user_request)

/-- The parameter record extracted from generated text, one optional field
per key the extraction prompt asks for. A JSON null value is modelled the
same as an absent key; task_id is modelled as the integer the dispatcher
compares against task ids. -/
structure TaskParams where
  title : Option String
  description : Option String
  priority : Option String
  due_date : Option String
  task_id : Option Nat
  status : Option String
deriving DecidableEq

/-- The record with every field absent, the Python empty dict. -/
def emptyParams : TaskParams := ⟨none, none, none, none, none, none⟩

/-- GoogleADKAgent._extract_task_info. The Gemini call is modelled as its
outcome: Except.error when generate_content raises, Except.ok with the
response text otherwise. The Markdown code-fence stripping plus json.loads
step is abstracted as a parse function returning none when parsing raises.
Both failure paths fall into the except branch, which logs and returns the
empty dict. -/
def extract_task_info (gen : Except String String)
    (parseJson : String → Option TaskParams) : TaskParams :=
  match gen with
  | Except.error _ => emptyParams
  | Except.ok text =>
    match parseJson text with
    | some info => info
    | none => emptyParams

/-- Python falsiness of the extracted task_id: absent or zero. -/
def taskIdFalsy : Option Nat → Bool
  | none => true
  | some n => n == 0

/-- GoogleADKAgent._execute_action, returning the result string together
with the store after the action. The source wraps the body in try/except;
every modelled operation is total, so the except branch is unreachable
here. The update branch passes no due_date, exactly as the source call
does. -/
def execute_action (db : List Task) (now : Nat) (action : String)
    (params : TaskParams) : String × List Task :=
  if action = "create" then
    let title := params.title.getD "Untitled Task"
    let description := params.description.getD ""
    let priority := params.priority.getD "medium"
    let due_date := params.due_date
    let r := create_task db now title description priority due_date
    ("✅ Task created successfully!\nID: " ++ toString r.1.id ++
      "\nTitle: " ++ r.1.title ++ "\nPriority: " ++ r.1.priority ++
      "\nStatus: " ++ r.1.status, r.2)
  else if action = "list" then
    let tasks := list_tasks db params.status
    if tasks.isEmpty then ("No tasks found.", db)
    else
      let body := tasks.foldl (fun acc task =>
        let line := acc ++ "• ID " ++ toString task.id ++ ": " ++ task.title ++
          " (" ++ task.status ++ ", " ++ task.priority ++ " priority)\n"
        let line :=
          match task.due_date with
          | some d => if d = "" then line else line ++ "  Due: " ++ d ++ "\n"
          | none => line
        let line :=
          if task.description = "" then line
          else line ++ "  Description: " ++ task.description ++ "\n"
        line ++ "\n")
        ("📋 Found " ++ toString tasks.length ++ " task(s):\n\n")
      (body, db)
  else if action = "update" then
    if taskIdFalsy params.task_id then
      ("Error: Task ID is required for updates.", db)
    else
      let tid := params.task_id.getD 0
      let r := update_task db now tid params.title params.description
        params.priority params.status none
      match r.1 with
      | some task =>
        ("✅ Task " ++ toString tid ++ " updated successfully!\nTitle: " ++
          task.title ++ "\nStatus: " ++ task.status ++ "\nPriority: " ++
          task.priority, r.2)
      | none => ("❌ Task " ++ toString tid ++ " not found.", r.2)
  else if action = "delete" then
    if taskIdFalsy params.task_id then
      ("Error: Task ID is required for deletion.", db)
    else
      let tid := params.task_id.getD 0
      let r := delete_task db tid
      if r.1 then ("✅ Task " ++ toString tid ++ " deleted successfully!", r.2)
      else ("❌ Task " ++ toString tid ++ " not found.", r.2)
  else if action = "statistics" then
    let stats := get_statistics db
    ("📊 Task Statistics:\n• Total Tasks: " ++ toString stats.total ++
      "\n• Pending: " ++ toString stats.pending ++
      "\n• In Progress: " ++ toString stats.in_progress ++
      "\n• Completed: " ++ toString stats.completed ++
      "\n• High Priority: " ++ toString stats.high_priority ++
      "\n• Medium Priority: " ++ toString stats.medium_priority ++
      "\n• Low Priority: " ++ toString stats.low_priority, db)
  else
    ("I understand your request, but I\x27m not sure how to handle it. Please try:\n- Creating a task\n- Listing tasks\n- Updating a task\n- Getting statistics", db)

end GoogleADKAgent

open TaskTools GoogleADKAgent

/-- Helper: three disjoint string values partition a list into the three
filters that test for them, provided every element carries one of the
three values. -/
theorem length_filter_three (l : List Task) (f : Task → String)
    (a b c : String) (hab : a ≠ b) (hac : a ≠ c) (hbc : b ≠ c)
    (h : ∀ t ∈ l, f t = a ∨ f t = b ∨ f t = c) :
    (l.filter (fun t => f t == a)).length + (l.filter (fun t => f t == b)).length +
      (l.filter (fun t => f t == c)).length = l.length := by
  induction l with
  | nil => simp
  | cons x xs ih =>
    have hx := h x (List.mem_cons_self x xs)
    have ihx := ih (fun t ht => h t (List.mem_cons_of_mem x ht))
    rcases hx with h1 | h1 | h1
    · have e1 : (f x == a) = true := by simp [h1]
      have e2 : (f x == b) = false := by simp [h1, hab]
      have e3 : (f x == c) = false := by simp [h1, hac]
      simp [List.filter_cons, e1, e2, e3]
      omega
    · have e1 : (f x == a) = false := by simp [h1]; exact Ne.symm hab
      have e2 : (f x == b) = true := by simp [h1]
      have e3 : (f x == c) = false := by simp [h1, hbc]
      simp [List.filter_cons, e1, e2, e3]
      omega
    · have e1 : (f x == a) = false := by simp [h1]; exact Ne.symm hac
      have e2 : (f x == b) = false := by simp [h1]; exact Ne.symm hbc
      have e3 : (f x == c) = true := by simp [h1]
      simp [List.filter_cons, e1, e2, e3]
      omega

/-- C1: the claim says ids assigned by successive creates are strictly
increasing, never reused even across deletes, and equal the count of tasks
ever created plus one. The code computes the id as len(tasks_db) + 1, the
current store size plus one, so after create, create, delete 1, create the
fourth operation is the third creation ever (the claimed id would be 3)
yet it receives id 2, the id already held by the live second task: the
store ends as two tasks both with id 2. -/
theorem create_task_reuses_id_after_delete :
    ((runOps [Op.create 0 "a" "" "medium" none, Op.create 0 "b" "" "medium" none,
      Op.delete 1, Op.create 0 "c" "" "medium" none]).map Task.id) = [2, 2] ∧
    (create_task (runOps [Op.create 0 "a" "" "medium" none,
      Op.create 0 "b" "" "medium" none, Op.delete 1]) 0 "c" "" "medium" none).1.id = 2 := by
  decide

/-- C2: the claim says every reachable store has pairwise distinct ids.
Because create_task assigns id len(tasks_db) + 1, the reachable state
after create, create, create, delete 2, create holds ids 1, 3, 3. -/
theorem reachable_state_with_duplicate_ids :
    ¬ ((runOps [Op.create 0 "a" "" "medium" none, Op.create 0 "b" "" "medium" none,
      Op.create 0 "c" "" "medium" none, Op.delete 2,
      Op.create 0 "d" "" "medium" none]).map Task.id).Nodup := by
  decide

/-- C3 counterexample: the store never validates priority (or status), so
the reachable state created by a single create with priority urgent makes
low + medium + high equal 0 while total equals 1, refuting the claimed
invariant over all reachable states. -/
theorem statistics_priority_sum_violated :
    (get_statistics (runOps [Op.create 0 "a" "" "urgent" none])).low_priority
      + (get_statistics (runOps [Op.create 0 "a" "" "urgent" none])).medium_priority
      + (get_statistics (runOps [Op.create 0 "a" "" "urgent" none])).high_priority
      ≠ (get_statistics (runOps [Op.create 0 "a" "" "urgent" none])).total := by
  decide

/-- C3 amended: the two sum equations hold under independent
preconditions: for every store state all of whose tasks carry one of the
three enumerated statuses, the statistics satisfy
pending + in_progress + completed = total, and for every store state all
of whose tasks carry one of the three enumerated priorities they satisfy
low + medium + high = total; reachable states whose create or update
arguments stay within the respective enumeration are of the respective
form. -/
theorem statistics_sums_when_fields_enumerated (db : List Task) :
    ((∀ t ∈ db, t.status = "pending" ∨ t.status = "in_progress" ∨ t.status = "completed") →
      (get_statistics db).pending + (get_statistics db).in_progress +
        (get_statistics db).completed = (get_statistics db).total) ∧
    ((∀ t ∈ db, t.priority = "low" ∨ t.priority = "medium" ∨ t.priority = "high") →
      (get_statistics db).low_priority + (get_statistics db).medium_priority +
        (get_statistics db).high_priority = (get_statistics db).total) := by
  constructor
  · intro hs
    have h := length_filter_three db (fun t => t.status) "pending" "in_progress"
      "completed" (by decide) (by decide) (by decide) hs
    simpa [get_statistics] using h
  · intro hp
    have h := length_filter_three db (fun t => t.priority) "low" "medium"
      "high" (by decide) (by decide) (by decide) hp
    simpa [get_statistics] using h

/-- C3 witness: the status sum instantiated on the very store of the
counterexample (its statuses are enumerated even though its priority
urgent is not), and the priority sum instantiated on a store with an
enumerated priority. -/
theorem statistics_sums_when_fields_enumerated_witness :
    (get_statistics (runOps [Op.create 0 "a" "" "urgent" none])).pending +
      (get_statistics (runOps [Op.create 0 "a" "" "urgent" none])).in_progress +
      (get_statistics (runOps [Op.create 0 "a" "" "urgent" none])).completed =
      (get_statistics (runOps [Op.create 0 "a" "" "urgent" none])).total ∧
    (get_statistics (runOps [Op.create 0 "b" "" "high" none])).low_priority +
      (get_statistics (runOps [Op.create 0 "b" "" "high" none])).medium_priority +
      (get_statistics (runOps [Op.create 0 "b" "" "high" none])).high_priority =
      (get_statistics (runOps [Op.create 0 "b" "" "high" none])).total :=
  ⟨(statistics_sums_when_fields_enumerated
      (runOps [Op.create 0 "a" "" "urgent" none])).1 (by decide),
    (statistics_sums_when_fields_enumerated
      (runOps [Op.create 0 "b" "" "high" none])).2 (by decide)⟩

/-- Helper: when the first task with the given id is t, update_task returns
the updated copy of t. -/
theorem update_task_fst (db : List Task) (now tid : Nat)
    (ti de pr st dd : Option String) (t : Task)
    (h : get_task db tid = some t) :
    (update_task db now tid ti de pr st dd).1 =
      some (applyTaskUpdate now ti de pr st dd t) := by
  induction db with
  | nil => simp [get_task] at h
  | cons x xs ih =>
    by_cases hx : (x.id == tid) = true
    · have hxt : x = t := by
        have := List.find?_cons_of_pos (p := fun u => u.id == tid) xs hx
        rw [get_task, this] at h
        exact Option.some.inj h
      subst hxt
      simp [update_task, hx]
    · have h2 : get_task xs tid = some t := by
        have := List.find?_cons_of_neg (p := fun u => u.id == tid) xs hx
        rw [get_task, this] at h
        exact h
      simp [update_task, hx, ih h2]

/-- C4: for a task id present in the store, update_task skips every field
whose argument is falsy (absent or the empty string) and overwrites every
field whose argument is a non-empty string, for each of title,
description, priority, status and due_date; hence no field can be cleared
to empty through update. -/
theorem update_task_falsy_skip (db : List Task) (now tid : Nat)
    (ti de pr st dd : Option String) (t : Task)
    (h : get_task db tid = some t) :
    ∃ u, (update_task db now tid ti de pr st dd).1 = some u ∧
      ((ti = none ∨ ti = some "") → u.title = t.title) ∧
      (∀ s, ti = some s → s ≠ "" → u.title = s) ∧
      ((de = none ∨ de = some "") → u.description = t.description) ∧
      (∀ s, de = some s → s ≠ "" → u.description = s) ∧
      ((pr = none ∨ pr = some "") → u.priority = t.priority) ∧
      (∀ s, pr = some s → s ≠ "" → u.priority = s) ∧
      ((st = none ∨ st = some "") → u.status = t.status) ∧
      (∀ s, st = some s → s ≠ "" → u.status = s) ∧
      ((dd = none ∨ dd = some "") → u.due_date = t.due_date) ∧
      (∀ s, dd = some s → s ≠ "" → u.due_date = some s) := by
  refine ⟨applyTaskUpdate now ti de pr st dd t,
    update_task_fst db now tid ti de pr st dd t h, ?_, ?_, ?_, ?_, ?_, ?_, ?_, ?_, ?_, ?_⟩
  · rintro (rfl | rfl) <;> simp [applyTaskUpdate, truthyUpd]
  · rintro s rfl hne; simp [applyTaskUpdate, truthyUpd, hne]
  · rintro (rfl | rfl) <;> simp [applyTaskUpdate, truthyUpd]
  · rintro s rfl hne; simp [applyTaskUpdate, truthyUpd, hne]
  · rintro (rfl | rfl) <;> simp [applyTaskUpdate, truthyUpd]
  · rintro s rfl hne; simp [applyTaskUpdate, truthyUpd, hne]
  · rintro (rfl | rfl) <;> simp [applyTaskUpdate, truthyUpd]
  · rintro s rfl hne; simp [applyTaskUpdate, truthyUpd, hne]
  · rintro (rfl | rfl) <;> simp [applyTaskUpdate]
  · rintro s rfl hne; simp [applyTaskUpdate, hne]

/-- C4 witness: in the one-task store, an update with empty-string title
and description keeps both fields, while a non-empty title overwrites. -/
theorem update_task_falsy_skip_witness :
    (∃ u, (update_task (runOps [Op.create 0 "a" "b" "medium" none]) 3 1
      (some "") (some "") none none none).1 = some u ∧
      u.title = "a" ∧ u.description = "b") ∧
    (∃ u, (update_task (runOps [Op.create 0 "a" "b" "medium" none]) 3 1
      (some "New") none none none none).1 = some u ∧ u.title = "New") := by
  constructor
  · obtain ⟨u, h1, h2, _, h4, _⟩ := update_task_falsy_skip
      (runOps [Op.create 0 "a" "b" "medium" none]) 3 1
      (some "") (some "") none none none
      ⟨1, "a", "b", "medium", none, "pending", 0, none⟩ (by decide)
    exact ⟨u, h1, h2 (Or.inr rfl), h4 (Or.inr rfl)⟩
  · obtain ⟨u, h1, _, h3, _⟩ := update_task_falsy_skip
      (runOps [Op.create 0 "a" "b" "medium" none]) 3 1
      (some "New") none none none none
      ⟨1, "a", "b", "medium", none, "pending", 0, none⟩ (by decide)
    exact ⟨u, h1, h3 "New" rfl (by decide)⟩

/-- C5: for a task id present in the store, an update whose status
argument is the string completed stamps completed_at with the current
clock; any update whose status argument is anything other than completed
(including the later update back to pending, and falsy arguments) leaves
completed_at exactly as it was, while a truthy status argument still
overwrites the status field. -/
theorem update_task_completed_at_behavior (db : List Task) (now tid : Nat)
    (ti de pr st dd : Option String) (t : Task)
    (h : get_task db tid = some t) :
    ∃ u, (update_task db now tid ti de pr st dd).1 = some u ∧
      (st = some "completed" → u.completed_at = some now) ∧
      ((∀ s, st = some s → s ≠ "completed") → u.completed_at = t.completed_at) ∧
      (∀ s, st = some s → s ≠ "" → u.status = s) := by
  refine ⟨applyTaskUpdate now ti de pr st dd t,
    update_task_fst db now tid ti de pr st dd t h, ?_, ?_, ?_⟩
  · rintro rfl; simp [applyTaskUpdate]
  · intro h2
    match st with
    | none => simp [applyTaskUpdate]
    | some s =>
      have hne : s ≠ "completed" := h2 s rfl
      simp [applyTaskUpdate, hne]
  · rintro s rfl hne; simp [applyTaskUpdate, truthyUpd, hne]

/-- C5 witness: completing the single task at clock 5 stamps
completed_at = 5; the later update back to pending at clock 9 changes the
status but keeps completed_at = 5. -/
theorem update_task_completed_at_behavior_witness :
    (∃ u, (update_task (runOps [Op.create 0 "a" "" "medium" none]) 5 1
      none none none (some "completed") none).1 = some u ∧
      u.completed_at = some 5) ∧
    (∃ u, (update_task (update_task (runOps [Op.create 0 "a" "" "medium" none])
      5 1 none none none (some "completed") none).2 9 1
      none none none (some "pending") none).1 = some u ∧
      u.status = "pending" ∧ u.completed_at = some 5) := by
  constructor
  · obtain ⟨u, h1, h2, _⟩ := update_task_completed_at_behavior
      (runOps [Op.create 0 "a" "" "medium" none]) 5 1
      none none none (some "completed") none
      ⟨1, "a", "", "medium", none, "pending", 0, none⟩ (by decide)
    exact ⟨u, h1, h2 rfl⟩
  · obtain ⟨u, h1, _, h3, h4⟩ := update_task_completed_at_behavior
      (update_task (runOps [Op.create 0 "a" "" "medium" none]) 5 1
        none none none (some "completed") none).2 9 1
      none none none (some "pending") none
      ⟨1, "a", "", "medium", none, "completed", 0, some 5⟩ (by decide)
    refine ⟨u, h1, h4 "pending" rfl (by decide), ?_⟩
    have := h3 (by rintro s hs; injection hs with e; subst e; decide)
    simpa using this

/-- C10: for a task id present in the store, every update whose status
argument is completed overwrites completed_at with the current clock, even
when the task is already completed and already carries an earlier
completed_at; completed_at therefore records the most recent completing
update, not the first transition into completed. -/
theorem recomplete_overwrites_completed_at (db : List Task) (now tid : Nat)
    (ti de pr dd : Option String) (t : Task)
    (h : get_task db tid = some t) (_hst : t.status = "completed") :
    ∃ u, (update_task db now tid ti de pr (some "completed") dd).1 = some u ∧
      u.completed_at = some now := by
  refine ⟨applyTaskUpdate now ti de pr (some "completed") dd t,
    update_task_fst db now tid ti de pr (some "completed") dd t h, ?_⟩
  simp [applyTaskUpdate]

/-- C10 witness: the task completed at clock 5 is completed again at clock
9, and completed_at moves from 5 to 9. -/
theorem recomplete_overwrites_completed_at_witness :
    ∃ u, (update_task (update_task (runOps [Op.create 0 "a" "" "medium" none])
      5 1 none none none (some "completed") none).2 9 1
      none none none (some "completed") none).1 = some u ∧
      u.completed_at = some 9 :=
  recomplete_overwrites_completed_at
    (update_task (runOps [Op.create 0 "a" "" "medium" none]) 5 1
      none none none (some "completed") none).2 9 1
    none none none none
    ⟨1, "a", "", "medium", none, "completed", 0, some 5⟩ (by decide) (by decide)

/-- Helper: deleting an id that is unique in the store removes exactly one
task. -/
theorem filter_ne_length_of_nodup (db : List Task) (tid : Nat)
    (hnd : (db.map Task.id).Nodup) (t : Task) (ht : t ∈ db)
    (heq : t.id = tid) :
    (db.filter (fun u => u.id != tid)).length + 1 = db.length := by
  induction db with
  | nil => cases ht
  | cons x xs ih =>
    rw [List.map_cons, List.nodup_cons] at hnd
    obtain ⟨hx, hxs⟩ := hnd
    rw [List.filter_cons]
    by_cases hxt : x.id = tid
    · have hall : ∀ u ∈ xs, (u.id != tid) = true := by
        intro u hu
        have hne : u.id ≠ x.id := by
          intro e
          exact hx (by rw [← e]; exact List.mem_map_of_mem Task.id hu)
        rw [hxt] at hne
        simpa using hne
      have hc : (x.id != tid) = false := by simp [hxt]
      rw [hc, List.filter_eq_self.mpr hall]
      simp
    · have ht2 : t ∈ xs := by
        rcases List.mem_cons.mp ht with rfl | h2
        · exact absurd heq hxt
        · exact h2
      have hc : (x.id != tid) = true := by simpa using hxt
      rw [hc]
      have h3 := ih hxs ht2
      simp only [if_true, List.length_cons]
      omega

/-- C6 counterexample: in the reachable store create p, create q, delete 1,
create r two live tasks both carry id 2 (the id-reuse defect), and
delete_task 2 removes both of them, not exactly one, leaving the other
task anything but unchanged. -/
theorem delete_task_removes_two_tasks :
    (runOps [Op.create 0 "p" "" "medium" none, Op.create 0 "q" "" "medium" none,
      Op.delete 1, Op.create 0 "r" "" "medium" none]).length = 2 ∧
    (delete_task (runOps [Op.create 0 "p" "" "medium" none,
      Op.create 0 "q" "" "medium" none, Op.delete 1,
      Op.create 0 "r" "" "medium" none]) 2).1 = true ∧
    (delete_task (runOps [Op.create 0 "p" "" "medium" none,
      Op.create 0 "q" "" "medium" none, Op.delete 1,
      Op.create 0 "r" "" "medium" none]) 2).2 = [] := by
  decide

/-- C6 amended: delete_task on an id held by no task returns false and
leaves the store unchanged; on an id held by some task it returns true and
removes every task carrying that id while keeping all other tasks in
order; when the ids in the store are pairwise distinct, exactly one task
is removed. -/
theorem delete_task_spec (db : List Task) (tid : Nat) :
    ((∀ t ∈ db, t.id ≠ tid) → delete_task db tid = (false, db)) ∧
    ((∃ t ∈ db, t.id = tid) → (delete_task db tid).1 = true) ∧
    (delete_task db tid).2 = db.filter (fun t => t.id != tid) ∧
    ((db.map Task.id).Nodup → ∀ t ∈ db, t.id = tid →
      (delete_task db tid).2.length + 1 = db.length) := by
  refine ⟨?_, ?_, rfl, ?_⟩
  · intro h
    have hall : ∀ t ∈ db, (t.id != tid) = true := by
      intro t ht; simpa using h t ht
    have hf : db.filter (fun t => t.id != tid) = db := List.filter_eq_self.mpr hall
    simp [delete_task, hf]
  · rintro ⟨t, ht, heq⟩
    have hlt : (db.filter (fun u => u.id != tid)).length < db.length := by
      rw [List.length_filter_lt_length_iff_exists]
      exact ⟨t, ht, by simp [heq]⟩
    simp [delete_task, hlt]
  · intro hnd t ht heq
    exact filter_ne_length_of_nodup db tid hnd t ht heq

/-- C6 witness: deleting the missing id 7 from the one-task store returns
false and keeps the store; deleting id 1 from the two-task store removes
exactly one of its two tasks. -/
theorem delete_task_spec_witness :
    delete_task (runOps [Op.create 0 "a" "" "medium" none]) 7 =
      (false, runOps [Op.create 0 "a" "" "medium" none]) ∧
    (delete_task (runOps [Op.create 0 "a" "" "medium" none,
      Op.create 0 "b" "" "medium" none]) 1).2.length + 1 =
      (runOps [Op.create 0 "a" "" "medium" none,
        Op.create 0 "b" "" "medium" none]).length := by
  constructor
  · exact (delete_task_spec (runOps [Op.create 0 "a" "" "medium" none]) 7).1
      (by decide)
  · exact (delete_task_spec (runOps [Op.create 0 "a" "" "medium" none,
      Op.create 0 "b" "" "medium" none]) 1).2.2.2 (by decide)
      ⟨1, "a", "", "medium", none, "pending", 0, none⟩ (by decide) (by decide)

/-- C7: parse_user_request lower-cases the text and tests the fixed
keyword sets in the priority order create, list, update, statistics,
delete; the first set with a keyword occurring in the text wins, general
is returned exactly when no keyword of any set occurs, and in particular
any text containing both a create keyword and a list keyword classifies as
create. -/
theorem parse_user_request_priority_order (text : String) :
    (anyKeyword (lowerStr text) createKeywords = true →
      (parse_user_request text).1 = "create") ∧
    (anyKeyword (lowerStr text) createKeywords = false →
      anyKeyword (lowerStr text) listKeywords = true →
      (parse_user_request text).1 = "list") ∧
    (anyKeyword (lowerStr text) createKeywords = false →
      anyKeyword (lowerStr text) listKeywords = false →
      anyKeyword (lowerStr text) updateKeywords = true →
      (parse_user_request text).1 = "update") ∧
    (anyKeyword (lowerStr text) createKeywords = false →
      anyKeyword (lowerStr text) listKeywords = false →
      anyKeyword (lowerStr text) updateKeywords = false →
      anyKeyword (lowerStr text) statisticsKeywords = true →
      (parse_user_request text).1 = "statistics") ∧
    (anyKeyword (lowerStr text) createKeywords = false →
      anyKeyword (lowerStr text) listKeywords = false →
      anyKeyword (lowerStr text) updateKeywords = false →
      anyKeyword (lowerStr text) statisticsKeywords = false →
      anyKeyword (lowerStr text) deleteKeywords = true →
      (parse_user_request text).1 = "delete") ∧
    ((parse_user_request text).1 = "general" ↔
      anyKeyword (lowerStr text) createKeywords = false ∧
      anyKeyword (lowerStr text) listKeywords = false ∧
      anyKeyword (lowerStr text) updateKeywords = false ∧
      anyKeyword (lowerStr text) statisticsKeywords = false ∧
      anyKeyword (lowerStr text) deleteKeywords = false) ∧
    (anyKeyword (lowerStr text) createKeywords = true →
      anyKeyword (lowerStr text) listKeywords = true →
      (parse_user_request text).1 = "create") := by
  cases hc : anyKeyword (lowerStr text) createKeywords <;>
    cases hl : anyKeyword (lowerStr text) listKeywords <;>
    cases hu : anyKeyword (lowerStr text) updateKeywords <;>
    cases hs : anyKeyword (lowerStr text) statisticsKeywords <;>
    cases hd : anyKeyword (lowerStr text) deleteKeywords <;>
    simp [parse_user_request, hc, hl, hu, hs, hd]

/-- C7 witness: a request containing both the create keyword and the list
keyword classifies as create, and a request with no keyword at all
classifies as general. -/
theorem parse_user_request_priority_order_witness :
    (parse_user_request "create a list of tasks").1 = "create" ∧
    (parse_user_request "hello there").1 = "general" := by
  constructor
  · exact (parse_user_request_priority_order "create a list of tasks").2.2.2.2.2.2
      (by decide) (by decide)
  · exact (parse_user_request_priority_order "hello there").2.2.2.2.2.1.mpr
      (by decide)

/-- C8: when the text generation call raises, or its output does not parse
as structured data, extract_task_info returns the empty parameter record
instead of propagating the failure, and dispatching a create with the
empty record still appends a task whose title is the default placeholder
Untitled Task. -/
theorem extract_failure_yields_default_create (db : List Task) (now : Nat)
    (e text : String) (parseJson : String → Option TaskParams)
    (hp : parseJson text = none) :
    extract_task_info (Except.error e) parseJson = emptyParams ∧
    extract_task_info (Except.ok text) parseJson = emptyParams ∧
    ∃ task, (execute_action db now "create" emptyParams).2 = db ++ [task] ∧
      task.title = "Untitled Task" ∧ task.status = "pending" := by
  refine ⟨rfl, by simp [extract_task_info, hp], ?_⟩
  refine ⟨⟨db.length + 1, "Untitled Task", "", "medium", none, "pending", now, none⟩,
    ?_, rfl, rfl⟩
  simp [execute_action, emptyParams, create_task]

/-- C8 witness: a generation failure yields the empty record, and the
create dispatched with it on the empty store creates the placeholder
task. -/
theorem extract_failure_yields_default_create_witness :
    extract_task_info (Except.error "boom") (fun _ => none) = emptyParams ∧
    ∃ task, (execute_action [] 0 "create" emptyParams).2 = [task] ∧
      task.title = "Untitled Task" := by
  obtain ⟨h1, _, task, h3, h4, _⟩ :=
    extract_failure_yields_default_create [] 0 "boom" "x" (fun _ => none) rfl
  exact ⟨h1, task, by simpa using h3, h4⟩

/-- C9: when the extracted parameter record has no task_id, the update and
delete branches of execute_action return their fixed user-facing error
strings and leave the store untouched. -/
theorem missing_task_id_returns_error (db : List Task) (now : Nat)
    (params : TaskParams) (h : params.task_id = none) :
    execute_action db now "update" params =
      ("Error: Task ID is required for updates.", db) ∧
    execute_action db now "delete" params =
      ("Error: Task ID is required for deletion.", db) := by
  constructor <;> simp [execute_action, taskIdFalsy, h]

/-- C9 witness: the empty record dispatched as update or delete on the
empty store returns the two error strings and the unchanged store. -/
theorem missing_task_id_returns_error_witness :
    execute_action [] 0 "update" emptyParams =
      ("Error: Task ID is required for updates.", []) ∧
    execute_action [] 0 "delete" emptyParams =
      ("Error: Task ID is required for deletion.", []) :=
  missing_task_id_returns_error [] 0 emptyParams rfl
